import Mathlib

/-!
Shallow embedding of the `henry` content-creation agent (Python sources under
`src/`): the phase state machine (`src/engine/phase.py`), the graph-backed
memory store (`src/memory/graph_db.py`), the conversational agent state
(`src/llm/agent_state.py`) and the interaction engine
(`src/engine/interaction.py`), together with theorems settling the frozen
claims about them.

Modelling conventions:
  * the Neo4j graph store is modelled as a list of per-session records plus
    the manager's current `session_id` pointer; `randomUUID()` is modelled by
    a counter (ids are the decimal renderings of successive naturals), and new
    sessions are prepended (the store lists sessions newest-first, cf.
    `list_sessions`' ORDER BY created DESC);
  * Python `datetime` values are kept abstract as their ISO-8601 rendering, so
    a timestamp is a `String` and `isoformat`/`fromisoformat` are identities;
  * Python dicts are association lists; `float` confidence values are
    modelled as rationals (only storage and equality matter to the claims);
  * operations of the source that can raise are `Except Unit`-valued; external
    LLM calls are modelled by an `LLMOutcome` record giving this turn's result
    of each call as seen from the engine (`Except.error` = the call raised, or
    returned output on which the engine's field access raises);
  * `random.choice` draws the element indexed by an ambient seed modulo the
    list length.
-/

/-- `ContentPhase` enum from `src/engine/phase.py`. -/
inductive ContentPhase where
  | CONTEXT_GATHERING
  | STRUCTURE_DEVELOPMENT
  | CONTENT_DEVELOPMENT
  | REFINEMENT
deriving DecidableEq, Repr

/-- Python enum member name (`ContentPhase.name`). -/
def ContentPhase.enumName : ContentPhase → String
  | .CONTEXT_GATHERING => "CONTEXT_GATHERING"
  | .STRUCTURE_DEVELOPMENT => "STRUCTURE_DEVELOPMENT"
  | .CONTENT_DEVELOPMENT => "CONTENT_DEVELOPMENT"
  | .REFINEMENT => "REFINEMENT"

/-- `PhaseController.phase_map` (name string to enum), `phase.py` lines 19-24.
Unrecognized names resolve to `none` (Python `dict.get`). -/
def phase_map : String → Option ContentPhase
  | "Context Gathering" => some .CONTEXT_GATHERING
  | "Structure Development" => some .STRUCTURE_DEVELOPMENT
  | "Content Development" => some .CONTENT_DEVELOPMENT
  | "Refinement" => some .REFINEMENT
  | _ => none

/-- `PhaseController.reverse_phase_map`, `phase.py` line 25. -/
def reverse_phase_map : ContentPhase → String
  | .CONTEXT_GATHERING => "Context Gathering"
  | .STRUCTURE_DEVELOPMENT => "Structure Development"
  | .CONTENT_DEVELOPMENT => "Content Development"
  | .REFINEMENT => "Refinement"

/-- One stored content session: a `Content` node with its current `Phase`,
closed phases, questions and user inputs (`src/memory/graph_db.py`). -/
structure SessionRec where
  sid : String
  ctype : String
  topic : String
  /-- name of the phase currently linked by CURRENT_PHASE, if any -/
  phase : Option String
  /-- names of phases already ended (SET p.ended, CURRENT_PHASE dropped) -/
  ended : List String
  /-- stored questions, oldest first: (id, text, intent) -/
  questions : List (String × String × Option String)
  /-- stored user inputs, oldest first: (id, text, response_to) -/
  inputs : List (String × String × Option String)
deriving DecidableEq, Repr

/-- State of `MemoryManager` (`src/memory/graph_db.py`) together with the
graph store it drives.  Sessions are kept newest-first. -/
structure MemState where
  sessions : List SessionRec
  /-- `MemoryManager.session_id` -/
  session_id : Option String
  /-- models the `randomUUID()` source -/
  next_id : Nat
deriving DecidableEq, Repr

namespace MemoryManager

/-- Lookup of a `Content` node by id (unique-id constraint on the store). -/
def find_session (m : MemState) (sid : String) : Option SessionRec :=
  m.sessions.find? (fun r => r.sid == sid)

/-- Update the session record with the given id in place. -/
def update_session (m : MemState) (sid : String) (f : SessionRec → SessionRec) :
    MemState :=
  { m with sessions := m.sessions.map (fun r => if r.sid == sid then f r else r) }

/-- `MemoryManager.start_new_session` (`graph_db.py` lines 29-45): creates the
Content node and its first Phase node "Context Gathering" in one statement and
points the manager at the new session.  Returns the new session id. -/
def start_new_session (m : MemState) (content_type topic : String) :
    String × MemState :=
  let sid := toString m.next_id
  (sid,
    { sessions :=
        { sid := sid, ctype := content_type, topic := topic,
          phase := some "Context Gathering", ended := [],
          questions := [], inputs := [] } :: m.sessions,
      session_id := some sid,
      next_id := m.next_id + 1 })

/-- `MemoryManager.get_current_phase` (`graph_db.py` lines 173-184): the name
of the phase linked by CURRENT_PHASE from the current Content, or `none`. -/
def get_current_phase (m : MemState) : Option String :=
  m.session_id.bind (fun sid => (find_session m sid).bind (fun r => r.phase))

/-- `MemoryManager.transition_phase` (`graph_db.py` lines 146-171): ends the
current phase and creates a new current one with the given name.  (Raises in
the source when the current Content does not exist; that corner is never
reached by the engine, which transitions only from a resolved phase.) -/
def transition_phase (m : MemState) (new_phase_name : String) : MemState :=
  match m.session_id with
  | none => m
  | some sid =>
    let m' := update_session m sid (fun r =>
      { r with ended := r.ended ++ r.phase.toList, phase := some new_phase_name })
    { m' with next_id := m'.next_id + 1 }

/-- `MemoryManager.add_user_input` (`graph_db.py` lines 47-73).  Errors when
the current Content node cannot be matched (`result.single()` is `None`). -/
def add_user_input (m : MemState) (text : String) (response_to : Option String) :
    Except Unit (String × MemState) :=
  match m.session_id with
  | none => Except.error ()
  | some sid =>
    match find_session m sid with
    | none => Except.error ()
    | some _ =>
      let iid := toString m.next_id
      let m' := update_session m sid (fun r =>
        { r with inputs := r.inputs ++ [(iid, text, response_to)] })
      Except.ok (iid, { m' with next_id := m'.next_id + 1 })

/-- `MemoryManager.add_question` (`graph_db.py` lines 75-96).  Errors when the
current Content node cannot be matched. -/
def add_question (m : MemState) (text : String) (intent : Option String) :
    Except Unit (String × MemState) :=
  match m.session_id with
  | none => Except.error ()
  | some sid =>
    match find_session m sid with
    | none => Except.error ()
    | some _ =>
      let qid := toString m.next_id
      let m' := update_session m sid (fun r =>
        { r with questions := r.questions ++ [(qid, text, intent)] })
      Except.ok (qid, { m' with next_id := m'.next_id + 1 })

/-- Snapshot returned by `load_session` (`graph_db.py` lines 258-270). -/
structure SessionData where
  id : String
  topic : String
  ctype : String
  phase_name : Option String
  last_question_id : Option String
  last_question : Option String
deriving DecidableEq, Repr

/-- `MemoryManager.load_session` (`graph_db.py` lines 217-272): looks the
Content node up by id; `none` when the id does not resolve, otherwise points
the manager at it and returns the snapshot (most recent question last in the
stored list). -/
def load_session (m : MemState) (sid : String) :
    Option SessionData × MemState :=
  match find_session m sid with
  | none => (none, m)
  | some r =>
    let lastq := r.questions.getLast?
    (some { id := r.sid, topic := r.topic, ctype := r.ctype,
            phase_name := r.phase,
            last_question_id := lastq.map (fun q => q.1),
            last_question := lastq.map (fun q => q.2.1) },
     { m with session_id := some sid })

end MemoryManager

namespace PhaseController

/-- `PhaseController.get_current_phase` (`phase.py` lines 27-30). -/
def get_current_phase (m : MemState) : Option ContentPhase :=
  (MemoryManager.get_current_phase m).bind phase_map

/-- `PhaseController.transition_to_next_phase` (`phase.py` lines 32-49):
computes the successor of the current phase and records the transition;
returns `false` without touching the store from the final or an unknown
phase. -/
def transition_to_next_phase (m : MemState) : MemState × Bool :=
  match get_current_phase m with
  | some .CONTEXT_GATHERING =>
    (MemoryManager.transition_phase m
      (reverse_phase_map .STRUCTURE_DEVELOPMENT), true)
  | some .STRUCTURE_DEVELOPMENT =>
    (MemoryManager.transition_phase m
      (reverse_phase_map .CONTENT_DEVELOPMENT), true)
  | some .CONTENT_DEVELOPMENT =>
    (MemoryManager.transition_phase m
      (reverse_phase_map .REFINEMENT), true)
  | _ => (m, false)

/-- `PhaseController.get_phase_prompts` (`phase.py` lines 51-91). -/
def get_phase_prompts (m : MemState) : List String :=
  match get_current_phase m with
  | some .CONTEXT_GATHERING =>
    ["What topic would you like to write about?",
     "Who is your target audience for this content?",
     "What are the key points you want to address?",
     "What is the purpose of this content? (Educate, entertain, persuade, etc.)",
     "Are there any specific examples or stories you want to include?"]
  | some .STRUCTURE_DEVELOPMENT =>
    ["Based on our discussion, I think these sections would work well. What do you think?",
     "Would you like to adjust the order of these sections?",
     "Do you have a preference for how to introduce this topic?",
     "How would you like to conclude this piece?",
     "Should we include any additional sections?"]
  | some .CONTENT_DEVELOPMENT =>
    ["Let\x27s expand on the first section. What details should we include?",
     "Can you provide more information or examples for this point?",
     "Is there any research or data that would strengthen this argument?",
     "How would you explain this concept to someone unfamiliar with the topic?",
     "Should we include any personal experiences related to this point?"]
  | some .REFINEMENT =>
    ["Does the flow of the content feel natural to you?",
     "Are there any sections that need more development?",
     "Is the tone consistent throughout?",
     "Does the introduction effectively hook the reader?",
     "Does the conclusion provide a satisfying ending?"]
  | none =>
    ["Could you tell me more about what you\x27re looking to create?"]

end PhaseController

/-! ### Conversational agent state (`src/llm/agent_state.py`) -/

/-- Python dict assignment `d[k] = v`: replace in place if the key exists,
append otherwise. -/
def dict_set {β : Type} (d : List (String × β)) (k : String) (v : β) :
    List (String × β) :=
  if d.any (fun p => p.1 == k) then
    d.map (fun p => if p.1 == k then (k, v) else p)
  else d ++ [(k, v)]

/-- Python `dict.update(new)`: assign every key of `new` in order. -/
def dict_update {β : Type} (d new_entries : List (String × β)) :
    List (String × β) :=
  new_entries.foldl (fun acc p => dict_set acc p.1 p.2) d

/-- Python `dict.get(k, default)` on an association list. -/
def dict_get {β : Type} (d : List (String × β)) (k : String) (default : β) : β :=
  match d.find? (fun p => p.1 == k) with
  | some p => p.2
  | none => default

/-- Python `str.lower()` (ASCII case folding, as in the source's inputs). -/
def py_lower (s : String) : String := String.mk (s.data.map Char.toLower)

/-- Python `str.strip()`: drop leading and trailing whitespace. -/
def py_strip (s : String) : String :=
  String.mk
    (((s.data.dropWhile Char.isWhitespace).reverse.dropWhile
      Char.isWhitespace).reverse)

/-- Python `str.startswith(pre)`. -/
def py_startswith (s pre : String) : Bool := pre.data.isPrefixOf s.data

/-- A `datetime` value, kept abstract as its ISO-8601 rendering. -/
def Timestamp : Type := String
deriving instance DecidableEq, Repr for Timestamp

/-- `datetime.isoformat()` on the abstract timestamp. -/
def Timestamp.isoformat (t : Timestamp) : String := t

/-- `datetime.fromisoformat(s)`. -/
def Timestamp.fromisoformat (s : String) : Timestamp := s

/-- A value held in the agent's working memory (Python values are
heterogeneous: lists of entities, intent/sentiment strings). -/
inductive WMValue where
  | str (s : String)
  | strs (l : List String)
deriving DecidableEq, Repr

/-- `Message` dataclass (`agent_state.py` lines 8-38). -/
structure Message where
  role : String
  content : String
  timestamp : Timestamp
  metadata : List (String × String)
deriving DecidableEq, Repr

/-- `Message.to_dict` (`agent_state.py` lines 17-19): role/content projection
for the API. -/
def Message.to_dict (msg : Message) : String × String := (msg.role, msg.content)

/-- Flat storage form of a message (spec section 6 snapshot format). -/
structure StorageMsg where
  role : String
  content : String
  timestamp : String
  metadata : List (String × String)
deriving DecidableEq, Repr

/-- `Message.to_storage_dict` (`agent_state.py` lines 21-28). -/
def Message.to_storage_dict (msg : Message) : StorageMsg :=
  { role := msg.role, content := msg.content,
    timestamp := msg.timestamp.isoformat, metadata := msg.metadata }

/-- `Message.from_storage_dict` (`agent_state.py` lines 30-38). -/
def Message.from_storage_dict (data : StorageMsg) : Message :=
  { role := data.role, content := data.content,
    timestamp := Timestamp.fromisoformat data.timestamp,
    metadata := data.metadata }

/-- Analysis dictionary returned by `LLMClient.analyze_input`; every field is
optional because the engine reads it with `dict.get` defaults
(`interaction.py` lines 102-106, `agent_state.py` lines 84-104). -/
structure Analysis where
  entities : Option (List String)
  intent : Option String
  sentiment : Option String
  should_transition : Option Bool
  transition_message : Option String
  confidence : Option (List (String × Rat))
deriving DecidableEq, Repr

/-- `AgentState` (`agent_state.py` lines 41-160). -/
structure AgentState where
  max_context_messages : Nat
  recent_messages : List Message
  current_topic : Option String
  content_type : Option String
  session_id : Option String
  confidence : List (String × Rat)
  working_memory : List (String × WMValue)
  last_analysis : Option Analysis
deriving DecidableEq, Repr

namespace AgentState

/-- `AgentState.__init__` (`agent_state.py` lines 44-58). -/
def init (max_context_messages : Nat) : AgentState :=
  { max_context_messages := max_context_messages, recent_messages := [],
    current_topic := none, content_type := none, session_id := none,
    confidence := [], working_memory := [], last_analysis := none }

/-- Python slice `l[-k:]`.  For `k = 0` the slice `[-0:]` is `[0:]`, i.e. the
whole list; otherwise it is the last `k` elements. -/
def pySliceLast {α : Type} (k : Nat) (l : List α) : List α :=
  if k = 0 then l else l.drop (l.length - k)

/-- `AgentState.add_message` (`agent_state.py` lines 60-74): append, then trim
to the last `max_context_messages` entries when the bound is exceeded.  The
`now` argument passes the ambient `datetime.now()` value explicitly. -/
def add_message (s : AgentState) (role content : String) (now : Timestamp)
    (metadata : Option (List (String × String))) : AgentState :=
  let msgs := s.recent_messages ++
    [{ role := role, content := content, timestamp := now,
       metadata := metadata.getD [] }]
  if msgs.length > s.max_context_messages then
    { s with recent_messages := pySliceLast s.max_context_messages msgs }
  else
    { s with recent_messages := msgs }

/-- `AgentState.get_recent_context` (`agent_state.py` lines 76-82). -/
def get_recent_context (s : AgentState) : List (String × String) :=
  s.recent_messages.map Message.to_dict

/-- `AgentState.set_analysis_result` (`agent_state.py` lines 84-104). -/
def set_analysis_result (s : AgentState) (analysis : Analysis) : AgentState :=
  let s := { s with last_analysis := some analysis }
  let s := match analysis.confidence with
    | some c => { s with confidence := dict_update s.confidence c }
    | none => s
  let s := match analysis.entities with
    | some e => { s with working_memory := dict_set s.working_memory "entities" (.strs e) }
    | none => s
  let s := match analysis.intent with
    | some i => { s with working_memory := dict_set s.working_memory "intent" (.str i) }
    | none => s
  match analysis.sentiment with
  | some v => { s with working_memory := dict_set s.working_memory "sentiment" (.str v) }
  | none => s

/-- `AgentState.get_phase_confidence` (`agent_state.py` lines 106-115). -/
def get_phase_confidence (s : AgentState) (phase_name : String) : Rat :=
  dict_get s.confidence ("phase_" ++ py_lower phase_name) 0

/-- Flat persisted snapshot (`save_state` output, spec section 6). -/
structure StateData where
  session_id : Option String
  current_topic : Option String
  content_type : Option String
  confidence : List (String × Rat)
  working_memory : List (String × WMValue)
  recent_messages : List StorageMsg
deriving DecidableEq, Repr

/-- `AgentState.save_state` (`agent_state.py` lines 117-130). -/
def save_state (s : AgentState) : StateData :=
  { session_id := s.session_id, current_topic := s.current_topic,
    content_type := s.content_type, confidence := s.confidence,
    working_memory := s.working_memory,
    recent_messages := s.recent_messages.map Message.to_storage_dict }

/-- `AgentState.load_state` (`agent_state.py` lines 132-150).  The source
rebuilds the message list one entry at a time, skipping an entry only when
`from_storage_dict` raises; on the typed storage records of this model the
parse is total, so the rebuild is a plain map. -/
def load_state (s : AgentState) (state_data : StateData) : AgentState :=
  { s with
    session_id := state_data.session_id,
    current_topic := state_data.current_topic,
    content_type := state_data.content_type,
    confidence := state_data.confidence,
    working_memory := state_data.working_memory,
    recent_messages := state_data.recent_messages.map Message.from_storage_dict }

/-- `AgentState.reset` (`agent_state.py` lines 152-160). -/
def reset (s : AgentState) : AgentState :=
  { s with
    recent_messages := [], current_topic := none, content_type := none,
    session_id := none, confidence := [], working_memory := [],
    last_analysis := none }

end AgentState

/-! ### Interaction engine (`src/engine/interaction.py`) -/

/-- Python substring test `needle in hay`. -/
def containsSub (hay needle : String) : Bool :=
  (List.range (hay.data.length + 1)).any
    (fun i => needle.data.isPrefixOf (hay.data.drop i))

/-- `random.choice` over a list, drawing the element indexed by the ambient
seed modulo the list length (the source lists are never empty). -/
def random_choice (seed : Nat) (l : List String) : String :=
  l.getD (seed % l.length) ""

/-- Per-turn outcome of the external LLM calls as seen from the engine:
`Except.error` means the call raised, or returned output on which the engine's
subsequent field access raises (`src/llm/client.py`, `interaction.py` lines
93-102, 250-252). -/
structure LLMOutcome where
  analyze : Except Unit Analysis
  generate : Except Unit String
deriving Repr

/-- State of `InteractionEngine` (`interaction.py` lines 17-57).  `use_llm`
models `llm_client is not None and prompt_manager is not None`; `now` is the
ambient clock value used for new messages; `seed` drives `random.choice`. -/
structure Engine where
  mem : MemState
  last_question_id : Option String
  use_llm : Bool
  agent : AgentState
  session_id : String
  seed : Nat
  now : Timestamp
deriving Repr

namespace InteractionEngine

/-- `InteractionEngine._format_system_message` (`interaction.py` lines
231-235). -/
def format_system_message (text : String) (title : Option String) : String :=
  match title with
  | some t => "[bold cyan]" ++ t ++ "[/bold cyan]\n[white]" ++ text ++ "[/white]"
  | none => "[cyan]" ++ text ++ "[/cyan]"

/-- `InteractionEngine._should_transition_phase` (`interaction.py` lines
142-160): keyword policy over the lower-cased input, keyed on the current
phase; `false` for the final or an unresolved phase. -/
def should_transition_phase (m : MemState) (text : String) : Bool :=
  match PhaseController.get_current_phase m with
  | some .CONTEXT_GATHERING =>
    ["next", "structure", "outline", "move on", "enough context"].any
      (fun keyword => containsSub (py_lower text) keyword)
  | some .STRUCTURE_DEVELOPMENT =>
    ["next", "content", "details", "expand", "flesh out", "move on"].any
      (fun keyword => containsSub (py_lower text) keyword)
  | some .CONTENT_DEVELOPMENT =>
    ["next", "refine", "review", "finalize", "polish", "revise"].any
      (fun keyword => containsSub (py_lower text) keyword)
  | _ => false

/-- `InteractionEngine.get_next_question` (`interaction.py` lines 237-270):
the phase-name lookup raises on an unresolved phase (`reverse_phase_map` is a
plain dict subscript); with the LLM active a failed generation falls back to a
random pick from the phase prompts; the chosen question is persisted and
becomes the pending question.  The question-selection step (lines 242-263) is
factored out as `choose_question`. -/
def choose_question (e : Engine) (o : LLMOutcome) : String :=
  if e.use_llm then
    match o.generate with
    | Except.ok q => q
    | Except.error _ =>
      random_choice e.seed (PhaseController.get_phase_prompts e.mem)
  else
    random_choice e.seed (PhaseController.get_phase_prompts e.mem)

def get_next_question (e : Engine) (o : LLMOutcome) :
    Except Unit (String × Engine) :=
  match PhaseController.get_current_phase e.mem with
  | none => Except.error ()
  | some current_phase =>
    match MemoryManager.add_question e.mem (choose_question e o)
        (some (reverse_phase_map current_phase)) with
    | Except.error u => Except.error u
    | Except.ok (question_id, m') =>
      Except.ok ("[bold green]Question:[/bold green] [white]" ++
          choose_question e o ++ "[/white]",
        { e with mem := m', last_question_id := some question_id })

/-- `InteractionEngine._process_with_keywords` (`interaction.py` lines
129-140). -/
def process_with_keywords (e : Engine) (o : LLMOutcome) (text : String) :
    Except Unit (String × Engine) :=
  if should_transition_phase e.mem text then
    match PhaseController.get_current_phase e.mem with
    | none => Except.error ()
    | some current_phase =>
      let next_phase_msg :=
        "Great! We\x27ve gathered enough information for the " ++
        py_lower current_phase.enumName ++
        " phase. Let\x27s move on to the next phase."
      let m' := (PhaseController.transition_to_next_phase e.mem).1
      match get_next_question { e with mem := m' } o with
      | Except.error u => Except.error u
      | Except.ok (q, e') => Except.ok (next_phase_msg ++ "\n\n" ++ q, e')
  else
    get_next_question e o

/-- `InteractionEngine._process_with_llm` (`interaction.py` lines 80-127): the
body of the `try` block; any exception inside it (phase-name lookup, the
analyzer call, or a re-raised storage failure) is caught and the turn falls
back to the keyword path. -/
def process_with_llm (e : Engine) (o : LLMOutcome) (text : String) :
    Except Unit (String × Engine) :=
  let body : Except Unit (String × Engine) :=
    match PhaseController.get_current_phase e.mem with
    | none => Except.error ()
    | some current_phase =>
      let phase_name := reverse_phase_map current_phase
      match o.analyze with
      | Except.error u => Except.error u
      | Except.ok analysis =>
        let e1 := { e with agent := e.agent.set_analysis_result analysis }
        if analysis.should_transition.getD false then
          let transition_message := analysis.transition_message.getD
            ("Great! We\x27ve gathered enough information for the " ++ phase_name ++
             " phase. Let\x27s move on to the next phase.")
          let m' := (PhaseController.transition_to_next_phase e1.mem).1
          match get_next_question { e1 with mem := m' } o with
          | Except.error u => Except.error u
          | Except.ok (next_question, e2) =>
            let resp := transition_message ++ "\n\n" ++ next_question
            Except.ok (resp,
              { e2 with agent := e2.agent.add_message "assistant" resp e2.now none })
        else
          match get_next_question e1 o with
          | Except.error u => Except.error u
          | Except.ok (next_question, e2) =>
            Except.ok (next_question,
              { e2 with agent :=
                  e2.agent.add_message "assistant" next_question e2.now none })
  match body with
  | Except.ok r => Except.ok r
  | Except.error _ => process_with_keywords e o text

/-- `InteractionEngine._handle_command` (`interaction.py` lines 162-229). -/
def handle_command (e : Engine) (o : LLMOutcome) (command : String) :
    Except Unit (String × Engine) :=
  let command := py_lower (py_strip command)
  if command == "/help" then
    Except.ok (format_system_message
      ("Available commands:\n" ++
       "/help - Show this help message\n" ++
       "/status - Show the current phase and progress\n" ++
       "/export - Export the content\n" ++
       "/next - Move to the next phase\n" ++
       "/menu - Show interactive menu options")
      (some "Help Commands"), e)
  else if command == "/status" then
    match PhaseController.get_current_phase e.mem with
    | none => Except.error ()
    | some current_phase =>
      let phase_name := reverse_phase_map current_phase
      let status_text :=
        if e.use_llm then
          "Current phase: " ++ phase_name ++ " (Confidence: " ++
          toString (e.agent.get_phase_confidence phase_name * 100) ++ "%)"
        else
          "Current phase: " ++ phase_name
      Except.ok (format_system_message status_text (some "Status"), e)
  else if command == "/export" then
    Except.ok (format_system_message
      "Content export would happen here (not implemented in MVP)"
      (some "Export"), e)
  else if command == "/menu" then
    Except.ok (format_system_message
      "Please select options from the interactive menu that will appear."
      (some "Interactive Menu"), e)
  else if command == "/next" then
    let (m', ok) := PhaseController.transition_to_next_phase e.mem
    if ok then
      match PhaseController.get_current_phase m' with
      | none => Except.error ()
      | some current_phase =>
        let phase_name := reverse_phase_map current_phase
        match get_next_question { e with mem := m' } o with
        | Except.error u => Except.error u
        | Except.ok (q, e') =>
          Except.ok (format_system_message
            ("Moving to " ++ phase_name ++ " phase.\n\n" ++ q)
            (some "Phase Transition"), e')
    else
      Except.ok (format_system_message
        "Cannot transition to next phase. You may already be in the final phase."
        (some "Error"), e)
  else
    Except.ok (format_system_message
      ("Unknown command: " ++ command ++ ". Type /help for available commands.")
      (some "Error"), e)

/-- Common prelude of `process_user_input` (`interaction.py` lines 59-67):
store the raw input linked to the pending question, and append it to the
agent's context window when the LLM is in use. -/
def record_input (e : Engine) (text : String) : Except Unit Engine :=
  match MemoryManager.add_user_input e.mem text e.last_question_id with
  | Except.error u => Except.error u
  | Except.ok (_, m') =>
    let e1 := { e with mem := m' }
    Except.ok (if e1.use_llm then
      { e1 with agent := e1.agent.add_message "user" text e1.now none }
    else e1)

/-- `InteractionEngine.process_user_input` (`interaction.py` lines 59-78):
record the input, then route commands to the command table and content input
to the active policy. -/
def process_user_input (e : Engine) (o : LLMOutcome) (text : String) :
    Except Unit (String × Engine) :=
  match record_input e text with
  | Except.error u => Except.error u
  | Except.ok e1 =>
    if py_startswith text "/" then handle_command e1 o text
    else if e1.use_llm then process_with_llm e1 o text
    else process_with_keywords e1 o text

/-- `InteractionEngine.start_session` (`interaction.py` lines 295-338). -/
def start_session (e : Engine) (o : LLMOutcome) (content_type topic : String) :
    Except Unit (String × Engine) :=
  let (_, m1) := MemoryManager.start_new_session e.mem content_type topic
  let e1 := { e with mem := m1 }
  let e1 :=
    if e1.use_llm then
      { e1 with agent :=
          { e1.agent.reset with
            session_id := some e1.session_id,
            current_topic := some topic, content_type := some content_type } }
    else e1
  let welcome_message :=
    "Welcome to your " ++ content_type ++
    " creation session about \x27[bold yellow]" ++ topic ++
    "[/bold yellow]\x27!\n\n" ++
    "We\x27ll start by gathering some context about what you want to write. " ++
    "I\x27ll ask you questions to help organize your thoughts, and then we\x27ll " ++
    "structure and develop your content together.\n\n"
  let e1 :=
    if e1.use_llm then
      let plain_welcome :=
        (welcome_message.replace "[bold yellow]" "").replace "[/bold yellow]" ""
      { e1 with agent := e1.agent.add_message "assistant" plain_welcome e1.now none }
    else e1
  match get_next_question e1 o with
  | Except.error u => Except.error u
  | Except.ok (first_question, e2) =>
    let e2 :=
      if e2.use_llm then
        let plain_question :=
          (((first_question.replace "[bold green]" "").replace "[/bold green]" "").replace
            "[white]" "").replace "[/white]" ""
        { e2 with agent := e2.agent.add_message "assistant" plain_question e2.now none }
      else e2
    Except.ok ("[bold blue]Welcome![/bold blue]\n\n" ++ welcome_message ++
      first_question, e2)

/-- Modelled from the spec: `InteractionEngine.resume_session` is called by
the console interface (`src/interface/console.py` line 121) but its definition
is missing from the source tree.  Per spec section 4.5 it loads the session
snapshot via `load_session`, restores the phase and the last-pending-question
id into the engine without re-emitting a new question, and returns a
resumption message; an id that does not resolve yields a failure signal. -/
def resume_session (e : Engine) (sid : String) : Option String × Engine :=
  match MemoryManager.load_session e.mem sid with
  | (none, m') => (none, { e with mem := m' })
  | (some data, m') =>
    (some ("Resuming your " ++ data.ctype ++ " session about \x27" ++
       data.topic ++ "\x27. Current phase: " ++ data.phase_name.getD "Unknown" ++ "."),
     { e with mem := m', last_question_id := data.last_question_id })

end InteractionEngine

/-- Claim-side reading of the fixed phase order: the immediate successor, or
`none` at the terminal phase (spec section 4.2). -/
def phase_succ : ContentPhase → Option ContentPhase
  | .CONTEXT_GATHERING => some .STRUCTURE_DEVELOPMENT
  | .STRUCTURE_DEVELOPMENT => some .CONTENT_DEVELOPMENT
  | .CONTENT_DEVELOPMENT => some .REFINEMENT
  | .REFINEMENT => none

/-- Claim-side reading of "the current phase's fixed keyword set" (spec
section 4.4); the final and an unresolved phase carry the empty set. -/
def phase_keywords : Option ContentPhase → List String
  | some .CONTEXT_GATHERING =>
    ["next", "structure", "outline", "move on", "enough context"]
  | some .STRUCTURE_DEVELOPMENT =>
    ["next", "content", "details", "expand", "flesh out", "move on"]
  | some .CONTENT_DEVELOPMENT =>
    ["next", "refine", "review", "finalize", "polish", "revise"]
  | _ => []

/-! ### Concrete states used to instantiate the theorems -/

/-- An empty store, as before any session is created. -/
def memEmpty : MemState := { sessions := [], session_id := none, next_id := 0 }

/-- A store holding one session in the "Context Gathering" phase. -/
def mCG : MemState :=
  { sessions := [{ sid := "0", ctype := "blog_post", topic := "cats",
                   phase := some "Context Gathering", ended := [],
                   questions := [], inputs := [] }],
    session_id := some "0", next_id := 1 }

/-- A store holding one session in the final "Refinement" phase. -/
def mRef : MemState :=
  { sessions := [{ sid := "0", ctype := "blog_post", topic := "cats",
                   phase := some "Refinement",
                   ended := ["Context Gathering", "Structure Development",
                             "Content Development"],
                   questions := [], inputs := [] }],
    session_id := some "0", next_id := 1 }

/-- A keyword-policy engine over `mCG`. -/
def eCG : Engine :=
  { mem := mCG, last_question_id := none, use_llm := false,
    agent := AgentState.init 10, session_id := "u0", seed := 0, now := "t0" }

/-- A keyword-policy engine over `mRef`. -/
def eRef : Engine :=
  { mem := mRef, last_question_id := none, use_llm := false,
    agent := AgentState.init 10, session_id := "u0", seed := 0, now := "t0" }

/-- An engine with the external-analyzer policy active over `mCG`. -/
def eLLM : Engine :=
  { mem := mCG, last_question_id := none, use_llm := true,
    agent := AgentState.init 10, session_id := "u0", seed := 0, now := "t0" }

/-- An engine with no backing session at all. -/
def eEmpty : Engine :=
  { mem := memEmpty, last_question_id := none, use_llm := false,
    agent := AgentState.init 10, session_id := "u0", seed := 0, now := "t0" }

/-- A turn on which both external LLM calls raise. -/
def oFail : LLMOutcome :=
  { analyze := Except.error (), generate := Except.error () }

/-! ### Helper lemmas -/

theorem phase_map_reverse (p : ContentPhase) :
    phase_map (reverse_phase_map p) = some p := by
  cases p <;> rfl

theorem find?_map_update (l : List SessionRec) (sid : String)
    (f : SessionRec → SessionRec) (hf : ∀ r, (f r).sid = r.sid) (s : String) :
    (l.map (fun r => if r.sid == sid then f r else r)).find?
        (fun r => r.sid == s) =
      (l.find? (fun r => r.sid == s)).map
        (fun r => if r.sid == sid then f r else r) := by
  have hfun : ((fun r : SessionRec => r.sid == s) ∘
      (fun r => if r.sid == sid then f r else r)) =
      (fun r : SessionRec => r.sid == s) := by
    funext r
    by_cases h : r.sid == sid
    · simp [Function.comp, h, hf]
    · simp [Function.comp, h]
  rw [List.find?_map, hfun]

theorem mem_get_current_phase_update (m : MemState) (sid : String)
    (f : SessionRec → SessionRec) (hfs : ∀ r, (f r).sid = r.sid)
    (hfp : ∀ r, (f r).phase = r.phase) :
    MemoryManager.get_current_phase (MemoryManager.update_session m sid f) =
      MemoryManager.get_current_phase m := by
  obtain ⟨sessions, session_id, next_id⟩ := m
  unfold MemoryManager.get_current_phase MemoryManager.update_session
    MemoryManager.find_session
  cases session_id with
  | none => rfl
  | some s =>
    simp only [Option.some_bind]
    rw [find?_map_update sessions sid f hfs s]
    cases hfind : sessions.find? (fun r => r.sid == s) with
    | none => rfl
    | some r =>
      by_cases h : r.sid = sid
      · simp [h, hfp]
      · simp [h]

theorem mem_get_current_phase_elim (m : MemState) (x : String)
    (h : MemoryManager.get_current_phase m = some x) :
    ∃ sid r, m.session_id = some sid ∧
      MemoryManager.find_session m sid = some r ∧ r.phase = some x := by
  unfold MemoryManager.get_current_phase at h
  cases hs : m.session_id with
  | none => rw [hs] at h; exact absurd h (by simp)
  | some sid =>
    rw [hs] at h
    simp only [Option.some_bind] at h
    cases hfind : MemoryManager.find_session m sid with
    | none => rw [hfind] at h; exact absurd h (by simp)
    | some r =>
      rw [hfind] at h
      exact ⟨sid, r, rfl, hfind, h⟩

theorem mem_get_current_phase_transition (m : MemState) (name : String)
    (sid : String) (r : SessionRec) (hs : m.session_id = some sid)
    (hf : MemoryManager.find_session m sid = some r) :
    MemoryManager.get_current_phase (MemoryManager.transition_phase m name) =
      some name := by
  unfold MemoryManager.find_session at hf
  have hr : (r.sid == sid) = true := by
    have h2 := List.find?_some hf
    simpa using h2
  obtain ⟨sessions, session_id, next_id⟩ := m
  subst hs
  unfold MemoryManager.transition_phase
  unfold MemoryManager.get_current_phase MemoryManager.update_session
    MemoryManager.find_session
  simp only [Option.some_bind]
  rw [find?_map_update sessions sid
    (fun r => { r with ended := r.ended ++ r.phase.toList, phase := some name })
    (fun _ => rfl) sid]
  simp only at hf
  rw [hf]
  have hr2 : r.sid = sid := by simpa using hr
  simp [hr2]

theorem pc_get_current_phase_elim (m : MemState) (p : ContentPhase)
    (h : PhaseController.get_current_phase m = some p) :
    ∃ x, MemoryManager.get_current_phase m = some x ∧ phase_map x = some p := by
  unfold PhaseController.get_current_phase at h
  cases hx : MemoryManager.get_current_phase m with
  | none => rw [hx] at h; exact absurd h (by simp)
  | some x => rw [hx] at h; exact ⟨x, rfl, h⟩

/-- From a resolved non-final phase, `transition_to_next_phase` reports
success and lands on the successor. -/
theorem pc_transition_success (m : MemState) (p : ContentPhase)
    (h : PhaseController.get_current_phase m = some p)
    (hne : p ≠ ContentPhase.REFINEMENT) :
    (PhaseController.transition_to_next_phase m).2 = true ∧
      PhaseController.get_current_phase
          (PhaseController.transition_to_next_phase m).1 = phase_succ p := by
  obtain ⟨x, hx, hmap⟩ := pc_get_current_phase_elim m p h
  obtain ⟨sid, r, hs, hf, _⟩ := mem_get_current_phase_elim m x hx
  have key : ∀ q : ContentPhase,
      PhaseController.get_current_phase
        (MemoryManager.transition_phase m (reverse_phase_map q)) = some q := by
    intro q
    unfold PhaseController.get_current_phase
    rw [mem_get_current_phase_transition m (reverse_phase_map q) sid r hs hf]
    simp [phase_map_reverse]
  cases p with
  | CONTEXT_GATHERING =>
    unfold PhaseController.transition_to_next_phase
    rw [h]
    exact ⟨rfl, key _⟩
  | STRUCTURE_DEVELOPMENT =>
    unfold PhaseController.transition_to_next_phase
    rw [h]
    exact ⟨rfl, key _⟩
  | CONTENT_DEVELOPMENT =>
    unfold PhaseController.transition_to_next_phase
    rw [h]
    exact ⟨rfl, key _⟩
  | REFINEMENT => exact absurd rfl hne

/-- From the final phase, `transition_to_next_phase` reports failure and
leaves the store untouched. -/
theorem pc_transition_final (m : MemState)
    (h : PhaseController.get_current_phase m = some ContentPhase.REFINEMENT) :
    PhaseController.transition_to_next_phase m = (m, false) := by
  unfold PhaseController.transition_to_next_phase
  rw [h]

theorem mem_phase_congr (m1 m2 : MemState) (hsess : m1.sessions = m2.sessions)
    (hsid : m1.session_id = m2.session_id) :
    MemoryManager.get_current_phase m1 = MemoryManager.get_current_phase m2 := by
  unfold MemoryManager.get_current_phase MemoryManager.find_session
  rw [hsess, hsid]

theorem add_question_ok (m : MemState) (text : String) (intent : Option String)
    (sid : String) (r : SessionRec) (hs : m.session_id = some sid)
    (hf : MemoryManager.find_session m sid = some r) :
    ∃ qid m', MemoryManager.add_question m text intent = Except.ok (qid, m') ∧
      MemoryManager.get_current_phase m' = MemoryManager.get_current_phase m := by
  unfold MemoryManager.add_question
  simp only [hs, hf]
  refine ⟨_, _, rfl, ?_⟩
  have h1 := mem_phase_congr
    { MemoryManager.update_session m sid (fun r =>
        { r with questions := r.questions ++ [(toString m.next_id, text, intent)] })
      with next_id :=
        (MemoryManager.update_session m sid (fun r =>
          { r with questions := r.questions ++ [(toString m.next_id, text, intent)] })).next_id + 1 }
    (MemoryManager.update_session m sid (fun r =>
      { r with questions := r.questions ++ [(toString m.next_id, text, intent)] }))
    rfl rfl
  rw [h1]
  exact mem_get_current_phase_update m sid _ (fun _ => rfl) (fun _ => rfl)

theorem add_user_input_ok (m : MemState) (text : String)
    (response_to : Option String) (sid : String) (r : SessionRec)
    (hs : m.session_id = some sid)
    (hf : MemoryManager.find_session m sid = some r) :
    ∃ iid m', MemoryManager.add_user_input m text response_to =
        Except.ok (iid, m') ∧
      MemoryManager.get_current_phase m' = MemoryManager.get_current_phase m := by
  unfold MemoryManager.add_user_input
  simp only [hs, hf]
  refine ⟨_, _, rfl, ?_⟩
  have h1 := mem_phase_congr
    { MemoryManager.update_session m sid (fun r =>
        { r with inputs := r.inputs ++ [(toString m.next_id, text, response_to)] })
      with next_id :=
        (MemoryManager.update_session m sid (fun r =>
          { r with inputs := r.inputs ++ [(toString m.next_id, text, response_to)] })).next_id + 1 }
    (MemoryManager.update_session m sid (fun r =>
      { r with inputs := r.inputs ++ [(toString m.next_id, text, response_to)] }))
    rfl rfl
  rw [h1]
  exact mem_get_current_phase_update m sid _ (fun _ => rfl) (fun _ => rfl)

theorem containsSub_self (n : String) : containsSub n n = true := by
  unfold containsSub
  rw [List.any_eq_true]
  refine ⟨0, ?_, ?_⟩
  · simp
  · simp [List.isPrefixOf_iff_prefix]

theorem containsSub_append_left (a b n : String)
    (h : containsSub a n = true) : containsSub (a ++ b) n = true := by
  unfold containsSub at h ⊢
  rw [List.any_eq_true] at h ⊢
  obtain ⟨i, hi, hp⟩ := h
  rw [List.mem_range] at hi
  refine ⟨i, ?_, ?_⟩
  · rw [List.mem_range, String.data_append, List.length_append]
    omega
  · rw [String.data_append,
      List.drop_append_of_le_length (by omega : i ≤ a.data.length)]
    rw [List.isPrefixOf_iff_prefix] at hp ⊢
    exact hp.trans (List.prefix_append _ _)

theorem containsSub_append_right (a b n : String)
    (h : containsSub b n = true) : containsSub (a ++ b) n = true := by
  unfold containsSub at h ⊢
  rw [List.any_eq_true] at h ⊢
  obtain ⟨i, hi, hp⟩ := h
  rw [List.mem_range] at hi
  refine ⟨a.data.length + i, ?_, ?_⟩
  · rw [List.mem_range, String.data_append, List.length_append]
    omega
  · rw [String.data_append, List.drop_append]
    exact hp

theorem containsSub_ne_empty (hay n : String) (h : containsSub hay n = true)
    (hn : n ≠ "") : hay ≠ "" := by
  intro he
  subst he
  apply hn
  have h2 : n.data.isPrefixOf ([] : List Char) = true := by
    simpa [containsSub] using h
  cases hd : n.data with
  | nil =>
    cases n with
    | mk data => cases hd; rfl
  | cons c cs =>
    rw [hd] at h2
    simp [List.isPrefixOf] at h2

theorem should_transition_cases (m : MemState) (text : String)
    (h : InteractionEngine.should_transition_phase m text = true) :
    ∃ p, PhaseController.get_current_phase m = some p ∧
      p ≠ ContentPhase.REFINEMENT := by
  unfold InteractionEngine.should_transition_phase at h
  cases hp : PhaseController.get_current_phase m with
  | none => rw [hp] at h; exact absurd h (by simp)
  | some p =>
    rw [hp] at h
    cases p with
    | CONTEXT_GATHERING => exact ⟨_, rfl, by decide⟩
    | STRUCTURE_DEVELOPMENT => exact ⟨_, rfl, by decide⟩
    | CONTENT_DEVELOPMENT => exact ⟨_, rfl, by decide⟩
    | REFINEMENT => exact absurd h (by simp)

/-- With a resolved current phase, `get_next_question` succeeds, returns the
formatted chosen question, and does not move the phase. -/
theorem get_next_question_ok (e : Engine) (o : LLMOutcome) (p : ContentPhase)
    (h : PhaseController.get_current_phase e.mem = some p) :
    ∃ e', InteractionEngine.get_next_question e o =
        Except.ok ("[bold green]Question:[/bold green] [white]" ++
          InteractionEngine.choose_question e o ++ "[/white]", e') ∧
      PhaseController.get_current_phase e'.mem = some p := by
  obtain ⟨x, hx, hmap⟩ := pc_get_current_phase_elim _ _ h
  obtain ⟨sid, r, hs, hf, _⟩ := mem_get_current_phase_elim _ _ hx
  obtain ⟨qid, m', haq, hph⟩ := add_question_ok e.mem
    (InteractionEngine.choose_question e o) (some (reverse_phase_map p)) sid r hs hf
  simp only [InteractionEngine.get_next_question, h, haq]
  refine ⟨_, rfl, ?_⟩
  show PhaseController.get_current_phase m' = some p
  unfold PhaseController.get_current_phase
  rw [hph]
  unfold PhaseController.get_current_phase at h
  exact h

/-- With a resolved current phase, recording the user input succeeds, keeps
the phase, and preserves the policy flag. -/
theorem record_input_ok (e : Engine) (text : String) (p : ContentPhase)
    (h : PhaseController.get_current_phase e.mem = some p) :
    ∃ e1, InteractionEngine.record_input e text = Except.ok e1 ∧
      PhaseController.get_current_phase e1.mem = some p ∧
      e1.use_llm = e.use_llm := by
  obtain ⟨x, hx, hmap⟩ := pc_get_current_phase_elim _ _ h
  obtain ⟨sid, r, hs, hf, _⟩ := mem_get_current_phase_elim _ _ hx
  obtain ⟨iid, m', hai, hph⟩ := add_user_input_ok e.mem text e.last_question_id
    sid r hs hf
  have hph2 : PhaseController.get_current_phase m' = some p := by
    unfold PhaseController.get_current_phase
    rw [hph]
    unfold PhaseController.get_current_phase at h
    exact h
  simp only [InteractionEngine.record_input, hai]
  by_cases hu : e.use_llm = true
  · rw [if_pos hu]
    exact ⟨_, rfl, by simpa using hph2, by simp [hu]⟩
  · rw [if_neg hu]
    exact ⟨_, rfl, by simpa using hph2, by simp⟩

/-- When the analyzer call fails, the LLM turn collapses to the keyword
path (`interaction.py` lines 124-127). -/
theorem pwl_fallback (e : Engine) (o : LLMOutcome)
    (text : String) (hana : o.analyze = Except.error ()) :
    InteractionEngine.process_with_llm e o text =
      InteractionEngine.process_with_keywords e o text := by
  unfold InteractionEngine.process_with_llm
  cases hp : PhaseController.get_current_phase e.mem with
  | none => rfl
  | some p => rw [hana]

theorem containsSub_question_fmt (q tail : String) :
    containsSub ("[bold green]Question:[/bold green] [white]" ++ q ++ tail)
      "Question:" = true := by
  apply containsSub_append_left
  apply containsSub_append_left
  decide

/-- With a resolved current phase, the keyword content path always succeeds
and its response carries the formatted next question. -/
theorem pwk_ok (e : Engine) (o : LLMOutcome) (text : String) (p : ContentPhase)
    (h : PhaseController.get_current_phase e.mem = some p) :
    ∃ resp e', InteractionEngine.process_with_keywords e o text =
        Except.ok (resp, e') ∧
      containsSub resp "Question:" = true ∧ resp ≠ "" := by
  cases hst : InteractionEngine.should_transition_phase e.mem text with
  | false =>
    simp only [InteractionEngine.process_with_keywords, hst, Bool.false_eq_true,
      if_false]
    obtain ⟨e', hq, _⟩ := get_next_question_ok e o p h
    refine ⟨_, e', hq, containsSub_question_fmt _ _, ?_⟩
    exact containsSub_ne_empty _ _ (containsSub_question_fmt _ _) (by decide)
  | true =>
    obtain ⟨p', hp', hne'⟩ := should_transition_cases _ _ hst
    have hpp : p = p' := by
      rw [h] at hp'
      simpa using hp'
    subst hpp
    simp only [InteractionEngine.process_with_keywords, hst, if_true, h]
    obtain ⟨q, hq⟩ : ∃ q, phase_succ p = some q := by
      cases p
      exacts [⟨_, rfl⟩, ⟨_, rfl⟩, ⟨_, rfl⟩, absurd rfl hne']
    have htr := (pc_transition_success e.mem p h hne').2
    rw [hq] at htr
    obtain ⟨e', hq2, _⟩ := get_next_question_ok
      { e with mem := (PhaseController.transition_to_next_phase e.mem).1 } o q htr
    rw [hq2]
    refine ⟨_, e', rfl, ?_, ?_⟩
    · exact containsSub_append_right _ _ _ (containsSub_question_fmt _ _)
    · exact containsSub_ne_empty _ _
        (containsSub_append_right _ _ _ (containsSub_question_fmt _ _)) (by decide)

/-! ### Claim theorems -/

/-- C1: for every resolved current phase except Refinement,
`transition_to_next_phase` returns `true` and moves the session to the
immediate successor in the fixed order Context Gathering → Structure
Development → Content Development → Refinement; from Refinement it returns
`false` and leaves the store (hence the current phase) unchanged — no
wrap-around. -/
theorem c1_transition_fixed_order (m : MemState) (p : ContentPhase)
    (h : PhaseController.get_current_phase m = some p) :
    (p ≠ ContentPhase.REFINEMENT →
      (PhaseController.transition_to_next_phase m).2 = true ∧
      PhaseController.get_current_phase
        (PhaseController.transition_to_next_phase m).1 = phase_succ p) ∧
    (p = ContentPhase.REFINEMENT →
      (PhaseController.transition_to_next_phase m).2 = false ∧
      (PhaseController.transition_to_next_phase m).1 = m) := by
  constructor
  · intro hne
    exact pc_transition_success m p h hne
  · intro he
    subst he
    rw [pc_transition_final m h]
    exact ⟨rfl, rfl⟩

/-- Witness for C1 at a concrete Context Gathering session. -/
theorem c1_transition_fixed_order_witness :
    (ContentPhase.CONTEXT_GATHERING ≠ ContentPhase.REFINEMENT →
      (PhaseController.transition_to_next_phase mCG).2 = true ∧
      PhaseController.get_current_phase
        (PhaseController.transition_to_next_phase mCG).1 =
        phase_succ ContentPhase.CONTEXT_GATHERING) ∧
    (ContentPhase.CONTEXT_GATHERING = ContentPhase.REFINEMENT →
      (PhaseController.transition_to_next_phase mCG).2 = false ∧
      (PhaseController.transition_to_next_phase mCG).1 = mCG) :=
  c1_transition_fixed_order mCG ContentPhase.CONTEXT_GATHERING (by decide)

/-- C5: saving the agent state and loading it into a fresh window of the same
capacity reproduces an equal sequence of turns (role, text, timestamp each)
and equal confidence and working-memory maps. -/
theorem c5_save_load_round_trip (s : AgentState) :
    ((AgentState.init s.max_context_messages).load_state
          s.save_state).recent_messages.map
        (fun msg => (msg.role, msg.content, msg.timestamp)) =
      s.recent_messages.map
        (fun msg => (msg.role, msg.content, msg.timestamp)) ∧
    ((AgentState.init s.max_context_messages).load_state
        s.save_state).confidence = s.confidence ∧
    ((AgentState.init s.max_context_messages).load_state
        s.save_state).working_memory = s.working_memory := by
  refine ⟨?_, rfl, rfl⟩
  simp only [AgentState.load_state, AgentState.save_state, List.map_map]
  rfl

/-- C6: the keyword policy's transition decision is true exactly when the
lower-cased input contains a keyword of the current phase's fixed keyword
set; in particular, in Context Gathering the input "let's move on" fires and
"I like cats" does not. -/
theorem c6_keyword_policy (m : MemState) (text : String) :
    (InteractionEngine.should_transition_phase m text = true ↔
      ∃ kw ∈ phase_keywords (PhaseController.get_current_phase m),
        containsSub (py_lower text) kw = true) ∧
    InteractionEngine.should_transition_phase mCG "let\x27s move on" = true ∧
    InteractionEngine.should_transition_phase mCG "I like cats" = false := by
  refine ⟨?_, by decide, by decide⟩
  unfold InteractionEngine.should_transition_phase
  cases hp : PhaseController.get_current_phase m with
  | none => simp [phase_keywords]
  | some p =>
    cases p <;> simp [phase_keywords, List.any_eq_true]

/-- C8 (amended): `start_new_session` performs no emptiness validation: for
every content type and topic — the empty strings included — it creates the
Session together with its first Phase "Context Gathering" as one unit, and
the store's current phase afterwards is "Context Gathering". -/
theorem c8_start_new_session_no_validation (m : MemState)
    (content_type topic : String) :
    MemoryManager.get_current_phase
        (MemoryManager.start_new_session m content_type topic).2 =
      some "Context Gathering" ∧
    (MemoryManager.start_new_session m content_type topic).2.sessions =
      { sid := toString m.next_id, ctype := content_type, topic := topic,
        phase := some "Context Gathering", ended := [], questions := [],
        inputs := [] } :: m.sessions ∧
    (MemoryManager.start_new_session m content_type topic).2.session_id =
      some (MemoryManager.start_new_session m content_type topic).1 := by
  refine ⟨?_, rfl, rfl⟩
  unfold MemoryManager.get_current_phase MemoryManager.start_new_session
    MemoryManager.find_session
  simp

/-- C8 counterexample: with both the content type and the topic empty,
`start_new_session` does not fail — it creates the session and its "Context
Gathering" phase all the same (the source has no validation path, so the
claimed `ValidationError` cannot occur). -/
theorem c8_counterexample :
    MemoryManager.get_current_phase
        (MemoryManager.start_new_session memEmpty "" "").2 =
      some "Context Gathering" ∧
    (MemoryManager.start_new_session memEmpty "" "").2.sessions.length = 1 := by
  constructor <;> rfl

/-- C9: `reset` empties the message buffer and clears topic, content type,
session id, confidence, working memory and last analysis, while the capacity
configuration is unchanged. -/
theorem c9_reset_clears_all_but_capacity (s : AgentState) :
    s.reset.recent_messages = [] ∧ s.reset.current_topic = none ∧
    s.reset.content_type = none ∧ s.reset.session_id = none ∧
    s.reset.confidence = [] ∧ s.reset.working_memory = [] ∧
    s.reset.last_analysis = none ∧
    s.reset.max_context_messages = s.max_context_messages :=
  ⟨rfl, rfl, rfl, rfl, rfl, rfl, rfl, rfl⟩

/-- C4 (amended): whenever the capacity is at least 1, no `add_message` ever
leaves more than `max_context_messages` stored messages; and appending 11
turns in order to a fresh window of capacity 10 leaves exactly the turns 2
through 11, in order (the 1st is evicted — strict FIFO).  At capacity 0 the
bound fails (see the counterexample): Python's trim `l[-0:]` keeps the whole
list. -/
theorem c4_window_bounded_fifo (s : AgentState) (role content : String)
    (now : Timestamp) (metadata : Option (List (String × String)))
    (t1 t2 t3 t4 t5 t6 t7 t8 t9 t10 t11 : String) (ts : Timestamp)
    (hcap : 1 ≤ s.max_context_messages) :
    (s.add_message role content now metadata).recent_messages.length ≤
      s.max_context_messages ∧
    ((((((((((((AgentState.init 10).add_message "user" t1 ts none).add_message
      "user" t2 ts none).add_message "user" t3 ts none).add_message "user" t4
      ts none).add_message "user" t5 ts none).add_message "user" t6 ts
      none).add_message "user" t7 ts none).add_message "user" t8 ts
      none).add_message "user" t9 ts none).add_message "user" t10 ts
      none).add_message "user" t11 ts none).recent_messages.map
        (fun msg => msg.content) =
      [t2, t3, t4, t5, t6, t7, t8, t9, t10, t11] := by
  constructor
  · dsimp only [AgentState.add_message]
    split
    case isTrue h =>
      dsimp only [AgentState.pySliceLast]
      rw [if_neg (by omega : ¬ s.max_context_messages = 0)]
      simp only [List.length_drop, List.length_append, List.length_cons,
        List.length_nil] at h ⊢
      omega
    case isFalse h =>
      simp only [List.length_append, List.length_cons, List.length_nil] at h ⊢
      omega
  · simp [AgentState.add_message, AgentState.pySliceLast, AgentState.init]

/-- Witness for C4 at a concrete window and eleven concrete turns. -/
theorem c4_window_bounded_fifo_witness :
    ((AgentState.init 10).add_message "user" "hi" "t" none).recent_messages.length ≤
      (AgentState.init 10).max_context_messages ∧
    ((((((((((((AgentState.init 10).add_message "user" "m1" "t" none).add_message
      "user" "m2" "t" none).add_message "user" "m3" "t" none).add_message "user" "m4"
      "t" none).add_message "user" "m5" "t" none).add_message "user" "m6" "t"
      none).add_message "user" "m7" "t" none).add_message "user" "m8" "t"
      none).add_message "user" "m9" "t" none).add_message "user" "m10" "t"
      none).add_message "user" "m11" "t" none).recent_messages.map
        (fun msg => msg.content) =
      ["m2", "m3", "m4", "m5", "m6", "m7", "m8", "m9", "m10", "m11"] :=
  c4_window_bounded_fifo (AgentState.init 10) "user" "hi" "t" none
    "m1" "m2" "m3" "m4" "m5" "m6" "m7" "m8" "m9" "m10" "m11" "t" (by decide)

/-- C4 counterexample: at capacity 0 the claimed bound "the number of stored
messages never exceeds `max_context_messages`" is false — Python's trim slice
`messages[-0:]` is the whole list, so one `add_message` leaves 1 > 0
messages. -/
theorem c4_counterexample :
    ¬ (((AgentState.init 0).add_message "user" "hello" "t"
          none).recent_messages.length ≤
        (AgentState.init 0).max_context_messages) := by
  decide

/-- C7 (amended): every input whose stripped, lower-cased command is not one
of `/help`, `/status`, `/export`, `/menu`, `/next` gets the unknown-command
error as normal response text — no exception — and the engine state is
returned untouched: the command path never reaches the phase-transition
content logic.  (The claim as frozen omits `/menu`, which the handler also
accepts; see the counterexample.) -/
theorem c7_unknown_command_error (e : Engine) (o : LLMOutcome) (cmd : String)
    (h : py_lower (py_strip cmd) ∉
      (["/help", "/status", "/export", "/menu", "/next"] : List String)) :
    InteractionEngine.handle_command e o cmd =
      Except.ok (InteractionEngine.format_system_message
        ("Unknown command: " ++ py_lower (py_strip cmd) ++
          ". Type /help for available commands.") (some "Error"), e) := by
  have h1 : py_lower (py_strip cmd) ≠ "/help" := fun hh => h (by rw [hh]; decide)
  have h2 : py_lower (py_strip cmd) ≠ "/status" := fun hh => h (by rw [hh]; decide)
  have h3 : py_lower (py_strip cmd) ≠ "/export" := fun hh => h (by rw [hh]; decide)
  have h4 : py_lower (py_strip cmd) ≠ "/menu" := fun hh => h (by rw [hh]; decide)
  have h5 : py_lower (py_strip cmd) ≠ "/next" := fun hh => h (by rw [hh]; decide)
  simp only [InteractionEngine.handle_command]
  rw [if_neg (by simpa using h1), if_neg (by simpa using h2),
    if_neg (by simpa using h3), if_neg (by simpa using h4),
    if_neg (by simpa using h5)]

/-- Witness for C7 (amended) at a concrete unknown command. -/
theorem c7_unknown_command_error_witness :
    InteractionEngine.handle_command eCG oFail "/foo" =
      Except.ok (InteractionEngine.format_system_message
        ("Unknown command: " ++ py_lower (py_strip "/foo") ++
          ". Type /help for available commands.") (some "Error"), eCG) :=
  c7_unknown_command_error eCG oFail "/foo" (by decide)

/-- C7 counterexample: `/menu` starts with `/` and its command is not one of
`/help`, `/status`, `/export`, `/next`, yet the handler returns the
interactive-menu message, not the unknown-command error the claim
prescribes. -/
theorem c7_counterexample :
    InteractionEngine.handle_command eCG oFail "/menu" =
      Except.ok ("[bold cyan]Interactive Menu[/bold cyan]\n[white]Please select options from the interactive menu that will appear.[/white]", eCG) ∧
    ("[bold cyan]Interactive Menu[/bold cyan]\n[white]Please select options from the interactive menu that will appear.[/white]" : String) ≠
      InteractionEngine.format_system_message
        ("Unknown command: /menu. Type /help for available commands.")
        (some "Error") := by
  constructor
  · rfl
  · decide

/-- C10: from the final phase (or an unresolved one), the keyword policy's
transition decision is false, and a non-command turn on the keyword content
path leaves the current phase exactly as it was — no transition out of
Refinement. -/
theorem c10_no_exit_from_final_phase (e : Engine) (o : LLMOutcome)
    (text : String)
    (h : PhaseController.get_current_phase e.mem =
        some ContentPhase.REFINEMENT ∨
      PhaseController.get_current_phase e.mem = none) :
    InteractionEngine.should_transition_phase e.mem text = false ∧
    ∀ resp e', InteractionEngine.process_with_keywords e o text =
        Except.ok (resp, e') →
      PhaseController.get_current_phase e'.mem =
        PhaseController.get_current_phase e.mem := by
  have hst : InteractionEngine.should_transition_phase e.mem text = false := by
    unfold InteractionEngine.should_transition_phase
    rcases h with h | h <;> rw [h]
  refine ⟨hst, ?_⟩
  intro resp e' hok
  simp only [InteractionEngine.process_with_keywords, hst, Bool.false_eq_true,
    if_false] at hok
  rcases h with h | h
  · obtain ⟨e'', hq, hph⟩ := get_next_question_ok e o _ h
    rw [hq] at hok
    simp only [Except.ok.injEq, Prod.mk.injEq] at hok
    obtain ⟨_, h4⟩ := hok
    rw [← h4, hph, h]
  · unfold InteractionEngine.get_next_question at hok
    rw [h] at hok
    exact absurd hok (by simp)

/-- Witness for C10 at a concrete Refinement-phase engine. -/
theorem c10_no_exit_from_final_phase_witness :
    InteractionEngine.should_transition_phase eRef.mem "please move on" = false ∧
    ∀ resp e', InteractionEngine.process_with_keywords eRef oFail
        "please move on" = Except.ok (resp, e') →
      PhaseController.get_current_phase e'.mem =
        PhaseController.get_current_phase eRef.mem :=
  c10_no_exit_from_final_phase eRef oFail "please move on" (Or.inl (by decide))

theorem pc_phase_start (m : MemState) (ct topic : String) :
    PhaseController.get_current_phase
        (MemoryManager.start_new_session m ct topic).2 =
      some ContentPhase.CONTEXT_GATHERING := by
  unfold PhaseController.get_current_phase MemoryManager.get_current_phase
    MemoryManager.start_new_session MemoryManager.find_session
  simp [phase_map]

theorem gnq_ne_error (e : Engine) (o : LLMOutcome) (p : ContentPhase)
    (h : PhaseController.get_current_phase e.mem = some p) (u : Unit) :
    InteractionEngine.get_next_question e o ≠ Except.error u := by
  obtain ⟨e', hq, _⟩ := get_next_question_ok e o p h
  rw [hq]
  simp

/-- `start_session` always succeeds and its welcome text carries the topic. -/
theorem start_session_ok (e : Engine) (o : LLMOutcome) (ct topic : String) :
    ∃ msg e', InteractionEngine.start_session e o ct topic =
      Except.ok (msg, e') ∧ containsSub msg topic = true := by
  by_cases hu : e.use_llm = true
  · simp only [InteractionEngine.start_session, MemoryManager.start_new_session,
      hu, eq_self_iff_true, if_true]
    split
    next u heq =>
      exact absurd heq (gnq_ne_error _ o ContentPhase.CONTEXT_GATHERING
        (pc_phase_start e.mem ct topic) u)
    next fq e2 heq =>
      refine ⟨_, _, rfl, ?_⟩
      apply containsSub_append_left
      apply containsSub_append_right
      apply containsSub_append_left
      apply containsSub_append_left
      apply containsSub_append_left
      apply containsSub_append_left
      apply containsSub_append_right
      exact containsSub_self topic
  · have hu2 : e.use_llm = false := by simpa using hu
    simp only [InteractionEngine.start_session, MemoryManager.start_new_session,
      hu2, Bool.false_eq_true, if_false]
    split
    next u heq =>
      exact absurd heq (gnq_ne_error _ o ContentPhase.CONTEXT_GATHERING
        (pc_phase_start e.mem ct topic) u)
    next fq e2 heq =>
      refine ⟨_, _, rfl, ?_⟩
      apply containsSub_append_left
      apply containsSub_append_right
      apply containsSub_append_left
      apply containsSub_append_left
      apply containsSub_append_left
      apply containsSub_append_left
      apply containsSub_append_right
      exact containsSub_self topic

/-- C2: resuming with a session id that does not resolve returns a failure
signal (`none`, the falsy result) instead of crashing, leaves the engine
untouched, and afterwards starting a new session still succeeds, its welcome
message carrying the new topic. -/
theorem c2_resume_unknown_id (e : Engine) (o : LLMOutcome)
    (sid ct topic : String)
    (h : MemoryManager.find_session e.mem sid = none) :
    (InteractionEngine.resume_session e sid).1 = none ∧
    (InteractionEngine.resume_session e sid).2 = e ∧
    ∃ msg e', InteractionEngine.start_session
        (InteractionEngine.resume_session e sid).2 o ct topic =
      Except.ok (msg, e') ∧ containsSub msg topic = true := by
  have hres : InteractionEngine.resume_session e sid = (none, e) := by
    unfold InteractionEngine.resume_session MemoryManager.load_session
    rw [h]
  rw [hres]
  exact ⟨rfl, rfl, start_session_ok e o ct topic⟩

/-- Witness for C2 at a concrete unknown id over an empty store. -/
theorem c2_resume_unknown_id_witness :
    (InteractionEngine.resume_session eEmpty "zzz").1 = none ∧
    (InteractionEngine.resume_session eEmpty "zzz").2 = eEmpty ∧
    ∃ msg e', InteractionEngine.start_session
        (InteractionEngine.resume_session eEmpty "zzz").2 oFail "blog_post"
        "cats" =
      Except.ok (msg, e') ∧ containsSub msg "cats" = true :=
  c2_resume_unknown_id eEmpty oFail "zzz" "blog_post" "cats" rfl

/-- C3: with the analyzer policy active, if the analyzer call fails on a
non-command turn (raises, or its output breaks the engine's field access),
`process_user_input` still returns — no exception — with the response computed
by the keyword/random fallback path, non-empty and containing the formatted
next question. -/
theorem c3_analyzer_failure_fallback (e : Engine) (o : LLMOutcome)
    (text : String) (p : ContentPhase)
    (hcmd : py_startswith text "/" = false)
    (hllm : e.use_llm = true)
    (hana : o.analyze = Except.error ())
    (hph : PhaseController.get_current_phase e.mem = some p) :
    ∃ e1 resp e', InteractionEngine.record_input e text = Except.ok e1 ∧
      InteractionEngine.process_user_input e o text =
        InteractionEngine.process_with_keywords e1 o text ∧
      InteractionEngine.process_user_input e o text = Except.ok (resp, e') ∧
      containsSub resp "Question:" = true ∧ resp ≠ "" := by
  obtain ⟨e1, hrec, hph1, hu1⟩ := record_input_ok e text p hph
  have hroute : InteractionEngine.process_user_input e o text =
      InteractionEngine.process_with_llm e1 o text := by
    simp only [InteractionEngine.process_user_input, hrec, hcmd,
      Bool.false_eq_true, if_false, hu1, hllm, eq_self_iff_true, if_true]
  have hfb := pwl_fallback e1 o text hana
  obtain ⟨resp, e', hok, hcq, hne⟩ := pwk_ok e1 o text p hph1
  exact ⟨e1, resp, e', hrec, by rw [hroute, hfb],
    by rw [hroute, hfb, hok], hcq, hne⟩

/-- Witness for C3 at a concrete analyzer-policy engine and failing turn. -/
theorem c3_analyzer_failure_fallback_witness :
    ∃ e1 resp e', InteractionEngine.record_input eLLM "I like cats" =
        Except.ok e1 ∧
      InteractionEngine.process_user_input eLLM oFail "I like cats" =
        InteractionEngine.process_with_keywords e1 oFail "I like cats" ∧
      InteractionEngine.process_user_input eLLM oFail "I like cats" =
        Except.ok (resp, e') ∧
      containsSub resp "Question:" = true ∧ resp ≠ "" :=
  c3_analyzer_failure_fallback eLLM oFail "I like cats"
    ContentPhase.CONTEXT_GATHERING (by decide) rfl rfl (by decide)
